import Mathlib

/-!
# The completion pipeline of `kubectl-fzf-completion`

A shallow embedding of `completeFun` from `cmd/kubectl-fzf-completion/main.go`.

`completeFun` is straight-line code that calls five collaborators living in other
packages (the fetcher, the completion generator, the output formatter, the fzf
invoker and the result resolver) and reacts to what they return.  The collaborators
are taken as the fields of an environment `Env`; the observable effects of one run
(the collaborator calls in order, the writes to standard output, the log lines and
the process exit) are collected in a `World`.
-/

namespace KubectlFzf

/-! ## Data model -/

/-- The `error` returned by `completion.ProcessCommandArgs`, split by the dynamic type
that `completeFun` inspects with `err.(resources.UnknownResourceError)` and
`err.(parse.UnmanagedFlagError)`; `other` is every remaining non-nil error.  The string
is the text of `err.Error()`. -/
inductive CompletionError where
  | UnknownResourceError (msg : String)
  | UnmanagedFlagError (msg : String)
  | other (msg : String)
  deriving DecidableEq, Repr

/-- The value `completionResults`; `completeFun` reads only `len(Completions)` and hands
the whole value to `GetFormattedOutput`. -/
structure CompletionResults where
  Completions : List String
  deriving DecidableEq, Repr

/-- The five collaborator calls made by `completeFun`. -/
inductive Stage where
  | load
  | generate
  | save
  | select
  | resolve
  deriving DecidableEq, Repr

/-- One collaborator call together with the arguments it received.  `F` is the type of
the fetcher handle `f`. -/
inductive Call (F : Type) where
  | LoadFetcherState (f : F)
  | ProcessCommandArgs (use : String) (args : List String) (f : F)
  | SaveFetcherState (f : F)
  | CallFzf (fzfInput : String) (initialQuery : String)
  | ProcessResult (use : String) (args : List String) (f : F) (fzfResult : String)
  deriving DecidableEq, Repr

/-- The stage a call belongs to. -/
def Call.stage {F : Type} : Call F → Stage
  | .LoadFetcherState _ => .load
  | .ProcessCommandArgs _ _ _ => .generate
  | .SaveFetcherState _ => .save
  | .CallFzf _ _ => .select
  | .ProcessResult _ _ _ _ => .resolve

/-- The logrus levels used by `completeFun`. -/
inductive Level where
  | warning
  | fatal
  deriving DecidableEq, Repr

/-- What one run of `completeFun` does to the outside: the collaborator calls in the
order they were made, the strings handed to `fmt.Print` in order, the lines logged
through logrus (they go to the error stream, not to standard output), and the code the
process was terminated with (`none` when `completeFun` returned to its caller). -/
structure World (F : Type) where
  calls : List (Call F)
  stdout : List String
  log : List (Level × String)
  exit : Option Nat

/-- The collaborators of `completeFun`.  Methods with a pointer receiver return the
fetcher handle they leave behind next to their Go result; a Go `error` is `none` for
`nil` and `some msg` otherwise, and a Go `(value, error)` pair is an `Except`. -/
structure Env (F : Type) where
  /-- The handle `fetcher.NewFetcher(&fetchConfigCli)`. -/
  NewFetcher : F
  /-- The method `f.LoadFetcherState()`. -/
  LoadFetcherState : F → F × Option String
  /-- The function `completion.ProcessCommandArgs(cmd.Use, args, f)`. -/
  ProcessCommandArgs : String → List String → F → F × Except CompletionError CompletionResults
  /-- The method `f.SaveFetcherState()`. -/
  SaveFetcherState : F → F × Option String
  /-- The method `completionResults.GetFormattedOutput()`. -/
  GetFormattedOutput : CompletionResults → String
  /-- The function `fzf.CallFzf(formattedComps, "")`. -/
  CallFzf : String → String → Except String String
  /-- The function `results.ProcessResult(cmd.Use, args, f, fzfResult)`. -/
  ProcessResult : String → List String → F → String → Except String String

/-! ## Effects -/

/-- The world before `completeFun` has done anything. -/
def World.start {F : Type} : World F :=
  { calls := [], stdout := [], log := [], exit := none }

/-- Record a collaborator call. -/
def World.call {F : Type} (c : Call F) (w : World F) : World F :=
  { w with calls := w.calls ++ [c] }

/-- The call `os.Exit(code)`: the process ends with `code`. -/
def os.Exit {F : Type} (code : Nat) (w : World F) : World F :=
  { w with exit := some code }

/-- The call `logrus.Warnf`/`logrus.Warn`: one line on the log, the run goes on. -/
def logrus.Warnf {F : Type} (msg : String) (w : World F) : World F :=
  { w with log := w.log ++ [(Level.warning, msg)] }

/-- The exit code logrus uses after a `Fatal` entry (`Fatalf` logs, then calls
`logger.Exit(1)`). -/
def logrus.fatalExitCode : Nat := 1

/-- The call `logrus.Fatalf`: one line on the log, then the process ends with
`logrus.fatalExitCode`. -/
def logrus.Fatalf {F : Type} (msg : String) (w : World F) : World F :=
  { w with log := w.log ++ [(Level.fatal, msg)], exit := some logrus.fatalExitCode }

/-- The call `fmt.Print(s)`: one write of `s` to standard output. -/
def fmt.Print {F : Type} (s : String) (w : World F) : World F :=
  { w with stdout := w.stdout ++ [s] }

/-- The exit code of the process: the code given to `os.Exit`, or `0` when
`completeFun` returned (cobra's `Execute` then returns `nil` and `main` returns). -/
def World.exitCode {F : Type} (w : World F) : Nat :=
  match w.exit with
  | some code => code
  | none => 0

/-- The stages of the calls of a run, in order. -/
def World.stages {F : Type} (w : World F) : List Stage :=
  w.calls.map Call.stage

/-! ## The program -/

/-- The verbs `addK8sCmd` registers; each one gets a command with `Use: verb` and
`Run: completeFun`. -/
def verbs : List String :=
  ["get", "exec", "logs", "label", "describe", "delete", "annotate", "edit"]

/-- The function `completeFun(cmd, args)`, with `use = cmd.Use`. -/
def completeFun {F : Type} (env : Env F) (use : String) (args : List String) : World F :=
  let w : World F := World.start
  let f := env.NewFetcher
  let w := w.call (.LoadFetcherState f)
  match env.LoadFetcherState f with
  | (_, some _) =>
    os.Exit 6 (logrus.Warnf "Error loading fetcher state" w)
  | (f, none) =>
    let w := w.call (.ProcessCommandArgs use args f)
    match env.ProcessCommandArgs use args f with
    | (_, .error (.UnknownResourceError e)) =>
      os.Exit 6 (logrus.Warnf ("Unknown resource type: " ++ e) w)
    | (_, .error (.UnmanagedFlagError e)) =>
      os.Exit 6 (logrus.Warnf ("Unmanaged flag: " ++ e) w)
    | (_, .error (.other e)) =>
      os.Exit 6 (logrus.Warnf ("Error during completion: " ++ e) w)
    | (f, .ok completionResults) =>
      let w := w.call (.SaveFetcherState f)
      match env.SaveFetcherState f with
      | (f, err) =>
        match err with
        | some e => os.Exit 6 (logrus.Warnf ("Error saving fetcher state: " ++ e) w)
        | none =>
          match err with
          | some e => logrus.Fatalf ("Completion error: " ++ e) w
          | none =>
            if completionResults.Completions.length = 0 then
              os.Exit 5 (logrus.Warnf "No completion found" w)
            else
              let formattedComps := env.GetFormattedOutput completionResults
              let w := w.call (.CallFzf formattedComps "")
              match env.CallFzf formattedComps "" with
              | .error e => logrus.Fatalf ("Call fzf error: " ++ e) w
              | .ok fzfResult =>
                let w := w.call (.ProcessResult use args f fzfResult)
                match env.ProcessResult use args f fzfResult with
                | .error e => logrus.Fatalf ("Process result error: " ++ e) w
                | .ok res => fmt.Print res w

/-! ## Outcomes of the collaborators, and concrete environments -/

/-- Whether `f.LoadFetcherState()` returns a nil error on the fresh handle. -/
def loadOk {F : Type} (env : Env F) : Bool :=
  (env.LoadFetcherState env.NewFetcher).2.isNone

/-- Whether `completion.ProcessCommandArgs` returns a nil error on the loaded handle. -/
def generateOk {F : Type} (env : Env F) (use : String) (args : List String) : Bool :=
  (env.ProcessCommandArgs use args (env.LoadFetcherState env.NewFetcher).1).2.isOk

/-- Modelled from the spec: the "no selection" marker.  `fzf.CallFzf` is not part of
`main.go`; it returns `(string, error)`, so a selection that is neither a chosen line nor
an error is the empty line. -/
def noSelection : String := ""

/-- An environment whose fetcher handle is the list of cached resource names and whose
collaborators return the given outcomes whatever they are called with.  Loading yields
the cache `pod-a`, `pod-b`. -/
def scripted (load : Option String) (gen : Except CompletionError CompletionResults)
    (save : Option String) (fzf : Except String String) (resolve : Except String String) :
    Env (List String) where
  NewFetcher := []
  LoadFetcherState := fun _ => (["pod-a", "pod-b"], load)
  ProcessCommandArgs := fun _ _ f => (f, gen)
  SaveFetcherState := fun f => (f, save)
  GetFormattedOutput := fun r => String.intercalate "\n" r.Completions
  CallFzf := fun _ _ => fzf
  ProcessResult := fun _ _ _ _ => resolve

/-- The round-trip scenario: the cache holds `pod-a` and `pod-b`, the generator offers
the cached names in order, the formatter renders one name per line, the user picks
`pod-a`, and the resolver returns the picked line. -/
def podEnv : Env (List String) where
  NewFetcher := []
  LoadFetcherState := fun _ => (["pod-a", "pod-b"], none)
  ProcessCommandArgs := fun _ _ f => (f, .ok { Completions := f })
  SaveFetcherState := fun f => (f, none)
  GetFormattedOutput := fun r => String.intercalate "\n" r.Completions
  CallFzf := fun _ _ => .ok "pod-a"
  ProcessResult := fun _ _ _ fzfResult => .ok fzfResult

/-! ## The outcome of each path

One lemma per path through `completeFun`, giving the whole final world. -/

/-- The warning `completeFun` logs for a generator error. -/
def generateWarning : CompletionError → String
  | .UnknownResourceError e => "Unknown resource type: " ++ e
  | .UnmanagedFlagError e => "Unmanaged flag: " ++ e
  | .other e => "Error during completion: " ++ e

/-- The run when `LoadFetcherState` returns an error. -/
theorem completeFun_load_error {F : Type} (env : Env F) (use : String)
    (args : List String) {f1 : F} {e : String}
    (hL : env.LoadFetcherState env.NewFetcher = (f1, some e)) :
    completeFun env use args =
      { calls := [.LoadFetcherState env.NewFetcher]
        stdout := []
        log := [(Level.warning, "Error loading fetcher state")]
        exit := some 6 } := by
  simp [completeFun, hL, World.start, World.call, os.Exit, logrus.Warnf]

/-- The run when the load succeeds and `ProcessCommandArgs` returns an error. -/
theorem completeFun_generate_error {F : Type} (env : Env F) (use : String)
    (args : List String) {f1 f2 : F} {e : CompletionError}
    (hL : env.LoadFetcherState env.NewFetcher = (f1, none))
    (hG : env.ProcessCommandArgs use args f1 = (f2, .error e)) :
    completeFun env use args =
      { calls := [.LoadFetcherState env.NewFetcher, .ProcessCommandArgs use args f1]
        stdout := []
        log := [(Level.warning, generateWarning e)]
        exit := some 6 } := by
  cases e <;>
    simp [completeFun, hL, hG, World.start, World.call, os.Exit, logrus.Warnf, generateWarning]

/-- The run when load and generator succeed and `SaveFetcherState` returns an error. -/
theorem completeFun_save_error {F : Type} (env : Env F) (use : String)
    (args : List String) {f1 f2 f3 : F} {r : CompletionResults} {e : String}
    (hL : env.LoadFetcherState env.NewFetcher = (f1, none))
    (hG : env.ProcessCommandArgs use args f1 = (f2, .ok r))
    (hS : env.SaveFetcherState f2 = (f3, some e)) :
    completeFun env use args =
      { calls := [.LoadFetcherState env.NewFetcher, .ProcessCommandArgs use args f1,
                  .SaveFetcherState f2]
        stdout := []
        log := [(Level.warning, "Error saving fetcher state: " ++ e)]
        exit := some 6 } := by
  simp [completeFun, hL, hG, hS, World.start, World.call, os.Exit, logrus.Warnf]

/-- The run when load, generator and save succeed and the result set is empty. -/
theorem completeFun_empty {F : Type} (env : Env F) (use : String)
    (args : List String) {f1 f2 f3 : F} {r : CompletionResults}
    (hL : env.LoadFetcherState env.NewFetcher = (f1, none))
    (hG : env.ProcessCommandArgs use args f1 = (f2, .ok r))
    (hS : env.SaveFetcherState f2 = (f3, none))
    (hE : r.Completions.length = 0) :
    completeFun env use args =
      { calls := [.LoadFetcherState env.NewFetcher, .ProcessCommandArgs use args f1,
                  .SaveFetcherState f2]
        stdout := []
        log := [(Level.warning, "No completion found")]
        exit := some 5 } := by
  simp [completeFun, hL, hG, hS, hE, World.start, World.call, os.Exit, logrus.Warnf]

/-- The run when `CallFzf` is reached and returns an error. -/
theorem completeFun_fzf_error {F : Type} (env : Env F) (use : String)
    (args : List String) {f1 f2 f3 : F} {r : CompletionResults} {e : String}
    (hL : env.LoadFetcherState env.NewFetcher = (f1, none))
    (hG : env.ProcessCommandArgs use args f1 = (f2, .ok r))
    (hS : env.SaveFetcherState f2 = (f3, none))
    (hE : r.Completions.length ≠ 0)
    (hZ : env.CallFzf (env.GetFormattedOutput r) "" = .error e) :
    completeFun env use args =
      { calls := [.LoadFetcherState env.NewFetcher, .ProcessCommandArgs use args f1,
                  .SaveFetcherState f2, .CallFzf (env.GetFormattedOutput r) ""]
        stdout := []
        log := [(Level.fatal, "Call fzf error: " ++ e)]
        exit := some logrus.fatalExitCode } := by
  simp [completeFun, hL, hG, hS, hE, hZ, World.start, World.call, logrus.Fatalf]

/-- The run when `CallFzf` returns a line and `ProcessResult` returns an error. -/
theorem completeFun_resolve_error {F : Type} (env : Env F) (use : String)
    (args : List String) {f1 f2 f3 : F} {r : CompletionResults} {line e : String}
    (hL : env.LoadFetcherState env.NewFetcher = (f1, none))
    (hG : env.ProcessCommandArgs use args f1 = (f2, .ok r))
    (hS : env.SaveFetcherState f2 = (f3, none))
    (hE : r.Completions.length ≠ 0)
    (hZ : env.CallFzf (env.GetFormattedOutput r) "" = .ok line)
    (hR : env.ProcessResult use args f3 line = .error e) :
    completeFun env use args =
      { calls := [.LoadFetcherState env.NewFetcher, .ProcessCommandArgs use args f1,
                  .SaveFetcherState f2, .CallFzf (env.GetFormattedOutput r) "",
                  .ProcessResult use args f3 line]
        stdout := []
        log := [(Level.fatal, "Process result error: " ++ e)]
        exit := some logrus.fatalExitCode } := by
  simp [completeFun, hL, hG, hS, hE, hZ, hR, World.start, World.call, logrus.Fatalf]

/-- The run when every collaborator succeeds and the result set is not empty. -/
theorem completeFun_success {F : Type} (env : Env F) (use : String)
    (args : List String) {f1 f2 f3 : F} {r : CompletionResults} {line res : String}
    (hL : env.LoadFetcherState env.NewFetcher = (f1, none))
    (hG : env.ProcessCommandArgs use args f1 = (f2, .ok r))
    (hS : env.SaveFetcherState f2 = (f3, none))
    (hE : r.Completions.length ≠ 0)
    (hZ : env.CallFzf (env.GetFormattedOutput r) "" = .ok line)
    (hR : env.ProcessResult use args f3 line = .ok res) :
    completeFun env use args =
      { calls := [.LoadFetcherState env.NewFetcher, .ProcessCommandArgs use args f1,
                  .SaveFetcherState f2, .CallFzf (env.GetFormattedOutput r) "",
                  .ProcessResult use args f3 line]
        stdout := [res]
        log := []
        exit := none } := by
  simp [completeFun, hL, hG, hS, hE, hZ, hR, World.start, World.call, fmt.Print]

/-! ## Fail-fast on a load error, and generator errors -/

/-- C1: for every verb (the eight registered ones included) and every raw argument list,
if `LoadFetcherState` returns an error then `completeFun` exits with code 6, the only
collaborator call of the run is the load itself (so `ProcessCommandArgs`, the save,
`CallFzf` and `ProcessResult` are never invoked), and nothing is written to standard
output. -/
theorem C1_load_failure_exits_6_before_any_stage {F : Type} (env : Env F) (use : String)
    (args : List String) (f1 : F) (e : String)
    (hL : env.LoadFetcherState env.NewFetcher = (f1, some e)) :
    (completeFun env use args).exit = some 6 ∧
    (completeFun env use args).exitCode = 6 ∧
    (completeFun env use args).calls = [.LoadFetcherState env.NewFetcher] ∧
    Stage.generate ∉ (completeFun env use args).stages ∧
    Stage.save ∉ (completeFun env use args).stages ∧
    Stage.select ∉ (completeFun env use args).stages ∧
    Stage.resolve ∉ (completeFun env use args).stages ∧
    (completeFun env use args).stdout = [] := by
  rw [completeFun_load_error env use args hL]
  simp [World.exitCode, World.stages, Call.stage]

/-- C1, at a concrete input: verb `get`, arguments `po` and the empty token, with a load
that fails. -/
theorem C1_load_failure_witness :
    (completeFun (scripted (some "no cache file") (.ok ⟨["pod-a"]⟩) none (.ok "pod-a")
        (.ok "pod-a")) "get" ["po", ""]).exitCode = 6 ∧
    (completeFun (scripted (some "no cache file") (.ok ⟨["pod-a"]⟩) none (.ok "pod-a")
        (.ok "pod-a")) "get" ["po", ""]).calls = [.LoadFetcherState []] ∧
    (completeFun (scripted (some "no cache file") (.ok ⟨["pod-a"]⟩) none (.ok "pod-a")
        (.ok "pod-a")) "get" ["po", ""]).stdout = [] :=
  have h := C1_load_failure_exits_6_before_any_stage
    (scripted (some "no cache file") (.ok ⟨["pod-a"]⟩) none (.ok "pod-a") (.ok "pod-a"))
    "get" ["po", ""] ["pod-a", "pod-b"] "no cache file" rfl
  ⟨h.2.1, h.2.2.1, h.2.2.2.2.2.2.2⟩

/-- C5: after a successful load, whatever error `ProcessCommandArgs` returns (an
`UnknownResourceError`, an `UnmanagedFlagError` or any other error), `completeFun` exits
with code 6, writes nothing to standard output, and its only calls are the load and the
generator: no save, no `CallFzf`, no `ProcessResult`. -/
theorem C5_generator_error_exits_6 {F : Type} (env : Env F) (use : String)
    (args : List String) (f1 f2 : F) (e : CompletionError)
    (hL : env.LoadFetcherState env.NewFetcher = (f1, none))
    (hG : env.ProcessCommandArgs use args f1 = (f2, .error e)) :
    (completeFun env use args).exit = some 6 ∧
    (completeFun env use args).exitCode = 6 ∧
    (completeFun env use args).stdout = [] ∧
    (completeFun env use args).calls =
      [.LoadFetcherState env.NewFetcher, .ProcessCommandArgs use args f1] ∧
    Stage.select ∉ (completeFun env use args).stages ∧
    Stage.resolve ∉ (completeFun env use args).stages := by
  rw [completeFun_generate_error env use args hL hG]
  simp [World.exitCode, World.stages, Call.stage]

/-- C5, at concrete inputs: one run for each of the three kinds of generator error. -/
theorem C5_generator_error_witness :
    (completeFun (scripted none (.error (.UnknownResourceError "foo")) none (.ok "pod-a")
        (.ok "pod-a")) "get" ["foo", ""]).exitCode = 6 ∧
    (completeFun (scripted none (.error (.UnmanagedFlagError "--sort-by")) none (.ok "pod-a")
        (.ok "pod-a")) "get" ["po", "--sort-by", ""]).exitCode = 6 ∧
    (completeFun (scripted none (.error (.other "timeout")) none (.ok "pod-a")
        (.ok "pod-a")) "get" ["po", ""]).exitCode = 6 :=
  ⟨(C5_generator_error_exits_6 (scripted none (.error (.UnknownResourceError "foo")) none
      (.ok "pod-a") (.ok "pod-a")) "get" ["foo", ""] ["pod-a", "pod-b"] ["pod-a", "pod-b"]
      (.UnknownResourceError "foo") rfl rfl).2.1,
   (C5_generator_error_exits_6 (scripted none (.error (.UnmanagedFlagError "--sort-by")) none
      (.ok "pod-a") (.ok "pod-a")) "get" ["po", "--sort-by", ""] ["pod-a", "pod-b"]
      ["pod-a", "pod-b"] (.UnmanagedFlagError "--sort-by") rfl rfl).2.1,
   (C5_generator_error_exits_6 (scripted none (.error (.other "timeout")) none
      (.ok "pod-a") (.ok "pod-a")) "get" ["po", ""] ["pod-a", "pod-b"] ["pod-a", "pod-b"]
      (.other "timeout") rfl rfl).2.1⟩

/-- C6: if the load and the generator succeed and `SaveFetcherState` returns an error,
`completeFun` exits with code 6 whatever the result set is (empty or not); the calls of
the run are the load, the generator and the save, so `CallFzf` and `ProcessResult` are
not called, and nothing is written to standard output. -/
theorem C6_save_failure_exits_6_before_selector {F : Type} (env : Env F) (use : String)
    (args : List String) (f1 f2 f3 : F) (r : CompletionResults) (e : String)
    (hL : env.LoadFetcherState env.NewFetcher = (f1, none))
    (hG : env.ProcessCommandArgs use args f1 = (f2, .ok r))
    (hS : env.SaveFetcherState f2 = (f3, some e)) :
    (completeFun env use args).exit = some 6 ∧
    (completeFun env use args).exitCode = 6 ∧
    (completeFun env use args).calls =
      [.LoadFetcherState env.NewFetcher, .ProcessCommandArgs use args f1,
       .SaveFetcherState f2] ∧
    Stage.select ∉ (completeFun env use args).stages ∧
    Stage.resolve ∉ (completeFun env use args).stages ∧
    (completeFun env use args).stdout = [] := by
  rw [completeFun_save_error env use args hL hG hS]
  simp [World.exitCode, World.stages, Call.stage]

/-- C6, at concrete inputs: a failing save with a non-empty and with an empty result
set. -/
theorem C6_save_failure_witness :
    (completeFun (scripted none (.ok ⟨["pod-a", "pod-b"]⟩) (some "disk full") (.ok "pod-a")
        (.ok "pod-a")) "get" ["po", ""]).exitCode = 6 ∧
    (completeFun (scripted none (.ok ⟨[]⟩) (some "disk full") (.ok "pod-a")
        (.ok "pod-a")) "get" ["po", ""]).exitCode = 6 :=
  ⟨(C6_save_failure_exits_6_before_selector (scripted none (.ok ⟨["pod-a", "pod-b"]⟩)
      (some "disk full") (.ok "pod-a") (.ok "pod-a")) "get" ["po", ""] ["pod-a", "pod-b"]
      ["pod-a", "pod-b"] ["pod-a", "pod-b"] ⟨["pod-a", "pod-b"]⟩ "disk full" rfl rfl rfl).2.1,
   (C6_save_failure_exits_6_before_selector (scripted none (.ok ⟨[]⟩)
      (some "disk full") (.ok "pod-a") (.ok "pod-a")) "get" ["po", ""] ["pod-a", "pod-b"]
      ["pod-a", "pod-b"] ["pod-a", "pod-b"] ⟨[]⟩ "disk full" rfl rfl rfl).2.1⟩

/-! ## The empty result set -/

/-- C3, as stated, fails: with verb `get`, arguments `po` and the empty token, a
generator that returns the empty result set and a save that fails, the run exits with
code 6, not with code 5. -/
theorem C3_empty_result_counterexample :
    (scripted none (.ok ⟨[]⟩) (some "disk full") (.ok "pod-a") (.ok "pod-a")).ProcessCommandArgs
        "get" ["po", ""] ["pod-a", "pod-b"] = (["pod-a", "pod-b"], .ok ⟨[]⟩) ∧
    (completeFun (scripted none (.ok ⟨[]⟩) (some "disk full") (.ok "pod-a") (.ok "pod-a"))
        "get" ["po", ""]).exitCode = 6 ∧
    ¬ (completeFun (scripted none (.ok ⟨[]⟩) (some "disk full") (.ok "pod-a") (.ok "pod-a"))
        "get" ["po", ""]).exitCode = 5 :=
  ⟨rfl, by decide, by decide⟩

/-- C3, amended: for every verb and raw argument list, a run whose generator returns an
empty result set and whose state save then succeeds exits with code 5 and writes nothing
to standard output; `CallFzf` and `ProcessResult` are not called. -/
theorem C3_empty_result_exits_5_after_save {F : Type} (env : Env F) (use : String)
    (args : List String) (f1 f2 f3 : F) (r : CompletionResults)
    (hL : env.LoadFetcherState env.NewFetcher = (f1, none))
    (hG : env.ProcessCommandArgs use args f1 = (f2, .ok r))
    (hS : env.SaveFetcherState f2 = (f3, none))
    (hE : r.Completions.length = 0) :
    (completeFun env use args).exit = some 5 ∧
    (completeFun env use args).exitCode = 5 ∧
    (completeFun env use args).stdout = [] ∧
    Stage.select ∉ (completeFun env use args).stages ∧
    Stage.resolve ∉ (completeFun env use args).stages := by
  rw [completeFun_empty env use args hL hG hS hE]
  simp [World.exitCode, World.stages, Call.stage]

/-- C3 amended, at a concrete input: an empty result set with a save that succeeds. -/
theorem C3_empty_result_witness :
    (completeFun (scripted none (.ok ⟨[]⟩) none (.ok "pod-a") (.ok "pod-a"))
        "get" ["po", ""]).exitCode = 5 ∧
    (completeFun (scripted none (.ok ⟨[]⟩) none (.ok "pod-a") (.ok "pod-a"))
        "get" ["po", ""]).stdout = [] :=
  have h := C3_empty_result_exits_5_after_save
    (scripted none (.ok ⟨[]⟩) none (.ok "pod-a") (.ok "pod-a")) "get" ["po", ""]
    ["pod-a", "pod-b"] ["pod-a", "pod-b"] ["pod-a", "pod-b"] ⟨[]⟩ rfl rfl rfl rfl
  ⟨h.2.1, h.2.2.1⟩

/-! ## The selector and the resolver -/

/-- C4, as stated, fails: when `CallFzf` returns the no-selection marker without an
error, `completeFun` still calls `ProcessResult` (with the marker as the selected line)
and prints what it returns. -/
theorem C4_no_selection_counterexample :
    (scripted none (.ok ⟨["pod-a", "pod-b"]⟩) none (.ok noSelection) (.ok "pod-a")).CallFzf
        "pod-a\npod-b" "" = .ok noSelection ∧
    Call.ProcessResult "get" ["po", ""] ["pod-a", "pod-b"] noSelection ∈
      (completeFun (scripted none (.ok ⟨["pod-a", "pod-b"]⟩) none (.ok noSelection)
        (.ok "pod-a")) "get" ["po", ""]).calls ∧
    (completeFun (scripted none (.ok ⟨["pod-a", "pod-b"]⟩) none (.ok noSelection)
        (.ok "pod-a")) "get" ["po", ""]).stdout = ["pod-a"] :=
  ⟨rfl, by decide, by decide⟩

/-- C4, amended: in every run in which `CallFzf` returns a line without an error (the
no-selection marker included), `completeFun` calls `ProcessResult` exactly once, as the
last call of the run, with the verb, the raw arguments and that line; standard output
receives exactly the resolver's string when the resolver succeeds and nothing when it
fails. -/
theorem C4_selected_line_always_resolved {F : Type} (env : Env F) (use : String)
    (args : List String) (f1 f2 f3 : F) (r : CompletionResults) (line : String)
    (hL : env.LoadFetcherState env.NewFetcher = (f1, none))
    (hG : env.ProcessCommandArgs use args f1 = (f2, .ok r))
    (hS : env.SaveFetcherState f2 = (f3, none))
    (hE : r.Completions.length ≠ 0)
    (hZ : env.CallFzf (env.GetFormattedOutput r) "" = .ok line) :
    (completeFun env use args).calls =
      [.LoadFetcherState env.NewFetcher, .ProcessCommandArgs use args f1,
       .SaveFetcherState f2, .CallFzf (env.GetFormattedOutput r) "",
       .ProcessResult use args f3 line] ∧
    (completeFun env use args).stages.count Stage.resolve = 1 ∧
    (completeFun env use args).stdout =
      (match env.ProcessResult use args f3 line with
       | .ok res => [res]
       | .error _ => []) := by
  rcases hR : env.ProcessResult use args f3 line with eR | res
  · rw [completeFun_resolve_error env use args hL hG hS hE hZ hR]
    simp [World.stages, Call.stage]
  · rw [completeFun_success env use args hL hG hS hE hZ hR]
    simp [World.stages, Call.stage]

/-- C4 amended, at a concrete input: the selector returns the no-selection marker and
the resolver is called with it. -/
theorem C4_selected_line_witness :
    (completeFun (scripted none (.ok ⟨["pod-a", "pod-b"]⟩) none (.ok noSelection)
        (.ok "pod-a")) "get" ["po", ""]).calls =
      [.LoadFetcherState [], .ProcessCommandArgs "get" ["po", ""] ["pod-a", "pod-b"],
       .SaveFetcherState ["pod-a", "pod-b"], .CallFzf "pod-a\npod-b" "",
       .ProcessResult "get" ["po", ""] ["pod-a", "pod-b"] noSelection] :=
  (C4_selected_line_always_resolved
    (scripted none (.ok ⟨["pod-a", "pod-b"]⟩) none (.ok noSelection) (.ok "pod-a"))
    "get" ["po", ""] ["pod-a", "pod-b"] ["pod-a", "pod-b"] ["pod-a", "pod-b"]
    ⟨["pod-a", "pod-b"]⟩ noSelection rfl rfl rfl (by decide) rfl).1

/-- C7: when the load, the generator, the save, the selector and the resolver all
succeed and the result set is not empty, `completeFun` returns (exit code 0) and standard
output holds exactly the resolver's string; the selector was called with the formatted
result set and the empty query, and the resolver with the verb and raw arguments the
generator received plus the selector's line. -/
theorem C7_success_prints_resolved_output {F : Type} (env : Env F) (use : String)
    (args : List String) (f1 f2 f3 : F) (r : CompletionResults) (line res : String)
    (hL : env.LoadFetcherState env.NewFetcher = (f1, none))
    (hG : env.ProcessCommandArgs use args f1 = (f2, .ok r))
    (hS : env.SaveFetcherState f2 = (f3, none))
    (hE : r.Completions.length ≠ 0)
    (hZ : env.CallFzf (env.GetFormattedOutput r) "" = .ok line)
    (hR : env.ProcessResult use args f3 line = .ok res) :
    (completeFun env use args).exit = none ∧
    (completeFun env use args).exitCode = 0 ∧
    (completeFun env use args).stdout = [res] ∧
    (completeFun env use args).calls =
      [.LoadFetcherState env.NewFetcher, .ProcessCommandArgs use args f1,
       .SaveFetcherState f2, .CallFzf (env.GetFormattedOutput r) "",
       .ProcessResult use args f3 line] := by
  rw [completeFun_success env use args hL hG hS hE hZ hR]
  simp [World.exitCode]

/-- C7, at the concrete input of the claim: verb `get`, arguments `po` and the empty
token, candidates `pod-a`, `pod-b`, the selection `pod-a` resolving to `pod-a`. -/
theorem C7_success_witness :
    (completeFun podEnv "get" ["po", ""]).exitCode = 0 ∧
    (completeFun podEnv "get" ["po", ""]).stdout = ["pod-a"] ∧
    (completeFun podEnv "get" ["po", ""]).calls =
      [.LoadFetcherState [], .ProcessCommandArgs "get" ["po", ""] ["pod-a", "pod-b"],
       .SaveFetcherState ["pod-a", "pod-b"], .CallFzf "pod-a\npod-b" "",
       .ProcessResult "get" ["po", ""] ["pod-a", "pod-b"] "pod-a"] :=
  (C7_success_prints_resolved_output podEnv "get" ["po", ""] ["pod-a", "pod-b"]
    ["pod-a", "pod-b"] ["pod-a", "pod-b"] ⟨["pod-a", "pod-b"]⟩ "pod-a" "pod-a"
    rfl rfl rfl (by decide) rfl rfl).2

/-- C8: once the selector has been reached (load, generator and save succeeded, result
set not empty), if `CallFzf` returns an error, or `CallFzf` returns a line and
`ProcessResult` returns an error, then `completeFun` ends through `logrus.Fatalf` with
exit code 1, which is neither 0 nor 5 nor 6, and writes nothing to standard output; when
it is `CallFzf` that failed, `ProcessResult` is not called. -/
theorem C8_selector_or_resolver_failure_is_fatal {F : Type} (env : Env F) (use : String)
    (args : List String) (f1 f2 f3 : F) (r : CompletionResults) (e : String)
    (hL : env.LoadFetcherState env.NewFetcher = (f1, none))
    (hG : env.ProcessCommandArgs use args f1 = (f2, .ok r))
    (hS : env.SaveFetcherState f2 = (f3, none))
    (hE : r.Completions.length ≠ 0)
    (hFail : env.CallFzf (env.GetFormattedOutput r) "" = .error e ∨
      ∃ line, env.CallFzf (env.GetFormattedOutput r) "" = .ok line ∧
        env.ProcessResult use args f3 line = .error e) :
    (completeFun env use args).exit = some logrus.fatalExitCode ∧
    (completeFun env use args).exitCode = 1 ∧
    (completeFun env use args).exitCode ≠ 0 ∧
    (completeFun env use args).exitCode ≠ 5 ∧
    (completeFun env use args).exitCode ≠ 6 ∧
    (completeFun env use args).stdout = [] ∧
    (env.CallFzf (env.GetFormattedOutput r) "" = .error e →
      Stage.resolve ∉ (completeFun env use args).stages) := by
  rcases hFail with hZ | ⟨line, hZ, hR⟩
  · rw [completeFun_fzf_error env use args hL hG hS hE hZ]
    simp [World.exitCode, World.stages, Call.stage, logrus.fatalExitCode]
  · rw [completeFun_resolve_error env use args hL hG hS hE hZ hR]
    simp [World.exitCode, World.stages, Call.stage, logrus.fatalExitCode, hZ]

/-- C8, at concrete inputs: a selector that fails, and a resolver that fails after a
selection. -/
theorem C8_selector_or_resolver_failure_witness :
    ((completeFun (scripted none (.ok ⟨["pod-a", "pod-b"]⟩) none (.error "fzf not found")
        (.ok "pod-a")) "get" ["po", ""]).exitCode = 1 ∧
     Stage.resolve ∉ (completeFun (scripted none (.ok ⟨["pod-a", "pod-b"]⟩) none
        (.error "fzf not found") (.ok "pod-a")) "get" ["po", ""]).stages) ∧
    ((completeFun (scripted none (.ok ⟨["pod-a", "pod-b"]⟩) none (.ok "pod-a")
        (.error "fzf not found")) "get" ["po", ""]).exitCode = 1 ∧
     (completeFun (scripted none (.ok ⟨["pod-a", "pod-b"]⟩) none (.ok "pod-a")
        (.error "fzf not found")) "get" ["po", ""]).stdout = []) :=
  have h1 := C8_selector_or_resolver_failure_is_fatal
    (scripted none (.ok ⟨["pod-a", "pod-b"]⟩) none (.error "fzf not found") (.ok "pod-a"))
    "get" ["po", ""] ["pod-a", "pod-b"] ["pod-a", "pod-b"] ["pod-a", "pod-b"]
    ⟨["pod-a", "pod-b"]⟩ "fzf not found" rfl rfl rfl (by decide) (Or.inl rfl)
  have h2 := C8_selector_or_resolver_failure_is_fatal
    (scripted none (.ok ⟨["pod-a", "pod-b"]⟩) none (.ok "pod-a") (.error "fzf not found"))
    "get" ["po", ""] ["pod-a", "pod-b"] ["pod-a", "pod-b"] ["pod-a", "pod-b"]
    ⟨["pod-a", "pod-b"]⟩ "fzf not found" rfl rfl rfl (by decide)
    (Or.inr ⟨"pod-a", rfl, rfl⟩)
  ⟨⟨h1.2.1, h1.2.2.2.2.2.2 rfl⟩, ⟨h2.2.1, h2.2.2.2.2.2.1⟩⟩

/-! ## Properties of every run -/

/-- C9: in every run, whenever `CallFzf` is called, the load and the generator succeeded,
the generated result set has at least one completion, and the text handed to `CallFzf`
is the formatted output of that result set. -/
theorem C9_selector_never_called_without_candidates {F : Type} (env : Env F)
    (use : String) (args : List String) (fzfInput initialQuery : String)
    (h : Call.CallFzf fzfInput initialQuery ∈ (completeFun env use args).calls) :
    ∃ f1 f2 r,
      env.LoadFetcherState env.NewFetcher = (f1, none) ∧
      env.ProcessCommandArgs use args f1 = (f2, .ok r) ∧
      0 < r.Completions.length ∧
      fzfInput = env.GetFormattedOutput r := by
  rcases hL : env.LoadFetcherState env.NewFetcher with ⟨f1, _ | eL⟩
  · rcases hG : env.ProcessCommandArgs use args f1 with ⟨f2, eG | r⟩
    · rw [completeFun_generate_error env use args hL hG] at h
      simp at h
    · rcases hS : env.SaveFetcherState f2 with ⟨f3, _ | eS⟩
      · by_cases hE : r.Completions.length = 0
        · rw [completeFun_empty env use args hL hG hS hE] at h
          simp at h
        · refine ⟨f1, f2, r, rfl, hG, Nat.pos_of_ne_zero hE, ?_⟩
          rcases hZ : env.CallFzf (env.GetFormattedOutput r) "" with eZ | line
          · rw [completeFun_fzf_error env use args hL hG hS hE hZ] at h
            simp at h
            exact h.1
          · rcases hR : env.ProcessResult use args f3 line with eR | res
            · rw [completeFun_resolve_error env use args hL hG hS hE hZ hR] at h
              simp at h
              exact h.1
            · rw [completeFun_success env use args hL hG hS hE hZ hR] at h
              simp at h
              exact h.1
      · rw [completeFun_save_error env use args hL hG hS] at h
        simp at h
  · rw [completeFun_load_error env use args hL] at h
    simp at h

/-- C9, at a concrete input: the call of `CallFzf` in the round-trip scenario. -/
theorem C9_selector_witness :
    ∃ f1 f2 r,
      podEnv.LoadFetcherState podEnv.NewFetcher = (f1, none) ∧
      podEnv.ProcessCommandArgs "get" ["po", ""] f1 = (f2, .ok r) ∧
      0 < r.Completions.length ∧
      "pod-a\npod-b" = podEnv.GetFormattedOutput r :=
  C9_selector_never_called_without_candidates podEnv "get" ["po", ""] "pod-a\npod-b" ""
    (by decide)

/-- C2: in every run, `SaveFetcherState` is called once when the load and the generator
both succeeded and not at all otherwise, and every call of `CallFzf` comes after the
call of `SaveFetcherState`. -/
theorem C2_save_once_iff_generated_and_before_selector {F : Type} (env : Env F)
    (use : String) (args : List String) :
    (completeFun env use args).stages.count Stage.save =
      (if loadOk env && generateOk env use args then 1 else 0) ∧
    (Stage.save ∈ (completeFun env use args).stages ↔
      (loadOk env = true ∧ generateOk env use args = true)) ∧
    ∀ before after, (completeFun env use args).stages = before ++ Stage.select :: after →
      Stage.save ∈ before := by
  have key : ∀ (before after : List Stage) (l : List Stage),
      l <+: [Stage.load, Stage.generate, Stage.save, Stage.select, Stage.resolve] →
      l = before ++ Stage.select :: after → Stage.save ∈ before := by
    intro before after l hl hb
    subst hb
    obtain ⟨t, ht⟩ := hl
    rcases before with _ | ⟨b0, _ | ⟨b1, _ | ⟨b2, _ | ⟨b3, b4⟩⟩⟩⟩ <;> simp_all
  rcases hL : env.LoadFetcherState env.NewFetcher with ⟨f1, _ | eL⟩
  · rcases hG : env.ProcessCommandArgs use args f1 with ⟨f2, eG | r⟩
    · rw [completeFun_generate_error env use args hL hG]
      refine ⟨?_, ?_, fun before after hb => key before after _ ?_ hb⟩
      · simp [World.stages, Call.stage, loadOk, generateOk, hL, hG, Except.isOk,
          Except.toBool]
      · simp [World.stages, Call.stage, loadOk, generateOk, hL, hG, Except.isOk,
          Except.toBool]
      · simp [World.stages, Call.stage]
    · have hok : loadOk env = true ∧ generateOk env use args = true := by
        simp [loadOk, generateOk, hL, hG, Except.isOk, Except.toBool]
      rcases hS : env.SaveFetcherState f2 with ⟨f3, _ | eS⟩
      · by_cases hE : r.Completions.length = 0
        · rw [completeFun_empty env use args hL hG hS hE]
          refine ⟨?_, ?_, fun before after hb => key before after _ ?_ hb⟩
          · simp [World.stages, Call.stage, hok]
          · simp [World.stages, Call.stage, hok]
          · simp [World.stages, Call.stage]
        · rcases hZ : env.CallFzf (env.GetFormattedOutput r) "" with eZ | line
          · rw [completeFun_fzf_error env use args hL hG hS hE hZ]
            refine ⟨?_, ?_, fun before after hb => key before after _ ?_ hb⟩
            · simp [World.stages, Call.stage, hok]
            · simp [World.stages, Call.stage, hok]
            · simp [World.stages, Call.stage]
          · rcases hR : env.ProcessResult use args f3 line with eR | res
            · rw [completeFun_resolve_error env use args hL hG hS hE hZ hR]
              refine ⟨?_, ?_, fun before after hb => key before after _ ?_ hb⟩
              · simp [World.stages, Call.stage, hok]
              · simp [World.stages, Call.stage, hok]
              · simp [World.stages, Call.stage]
            · rw [completeFun_success env use args hL hG hS hE hZ hR]
              refine ⟨?_, ?_, fun before after hb => key before after _ ?_ hb⟩
              · simp [World.stages, Call.stage, hok]
              · simp [World.stages, Call.stage, hok]
              · simp [World.stages, Call.stage]
      · rw [completeFun_save_error env use args hL hG hS]
        refine ⟨?_, ?_, fun before after hb => key before after _ ?_ hb⟩
        · simp [World.stages, Call.stage, hok]
        · simp [World.stages, Call.stage, hok]
        · simp [World.stages, Call.stage]
  · rw [completeFun_load_error env use args hL]
    refine ⟨?_, ?_, fun before after hb => key before after _ ?_ hb⟩
    · simp [World.stages, Call.stage, loadOk, hL]
    · simp [World.stages, Call.stage, loadOk, hL]
    · simp [World.stages, Call.stage]

/-- C10: whatever the collaborators return, the calls of one run of `completeFun` are
an initial part of the sequence load, generate, save, select, resolve: the load is called
exactly once and the generator, the save, the selector and the resolver at most once
each, in that order.  Standard output is written exactly once when the run ends with
exit code 0 and not at all when it ends with any other exit code. -/
theorem C10_single_linear_pass {F : Type} (env : Env F) (use : String)
    (args : List String) :
    (completeFun env use args).stages <+:
      [Stage.load, Stage.generate, Stage.save, Stage.select, Stage.resolve] ∧
    (completeFun env use args).stages.count Stage.load = 1 ∧
    (completeFun env use args).stages.count Stage.generate ≤ 1 ∧
    (completeFun env use args).stages.count Stage.save ≤ 1 ∧
    (completeFun env use args).stages.count Stage.select ≤ 1 ∧
    (completeFun env use args).stages.count Stage.resolve ≤ 1 ∧
    (completeFun env use args).stdout.length =
      (if (completeFun env use args).exitCode = 0 then 1 else 0) := by
  rcases hL : env.LoadFetcherState env.NewFetcher with ⟨f1, _ | eL⟩
  · rcases hG : env.ProcessCommandArgs use args f1 with ⟨f2, eG | r⟩
    · rw [completeFun_generate_error env use args hL hG]
      simp [World.stages, Call.stage, World.exitCode]
    · rcases hS : env.SaveFetcherState f2 with ⟨f3, _ | eS⟩
      · by_cases hE : r.Completions.length = 0
        · rw [completeFun_empty env use args hL hG hS hE]
          simp [World.stages, Call.stage, World.exitCode]
        · rcases hZ : env.CallFzf (env.GetFormattedOutput r) "" with eZ | line
          · rw [completeFun_fzf_error env use args hL hG hS hE hZ]
            simp [World.stages, Call.stage, World.exitCode, logrus.fatalExitCode]
          · rcases hR : env.ProcessResult use args f3 line with eR | res
            · rw [completeFun_resolve_error env use args hL hG hS hE hZ hR]
              simp [World.stages, Call.stage, World.exitCode, logrus.fatalExitCode]
            · rw [completeFun_success env use args hL hG hS hE hZ hR]
              simp [World.stages, Call.stage, World.exitCode]
      · rw [completeFun_save_error env use args hL hG hS]
        simp [World.stages, Call.stage, World.exitCode]
  · rw [completeFun_load_error env use args hL]
    simp [World.stages, Call.stage, World.exitCode]

end KubectlFzf
